import Mathlib

/-!
Shallow embedding of `plugins/audit/cors_origin.py` (w3af CORS misconfiguration
audit plugin) together with proofs about its report-throttling layer, its four
detection rules and its configuration validation.

Conventions of the embedding:
* Python strings are Lean `String`s; `None` becomes `Option.none`.
* Python string operations (`lower`, `upper`, `strip`, `split(',')`,
  `needle in hay`) are re-implemented below on `List Char` so that they are
  fully executable (`py...` helpers); they implement the ASCII behaviour of
  the Python operations, which covers every string this plugin manipulates.
* The mutable plugin instance (`self`) becomes the explicit state record
  `cors_origin`; each method takes the state and returns the produced
  vulnerability list together with the new state.
* Side effects on the knowledge base (`kb.kb.append`) and the output manager
  (`om.out.vulnerability`) are modelled as explicit event logs (`kb`, `om`)
  in the result of each method.
-/

set_option maxRecDepth 8192

/-- The four severity constants of `core.data.constants.severity` used by the
plugin. -/
inductive Severity where
  | INFORMATION
  | LOW
  | MEDIUM
  | HIGH
deriving DecidableEq

/-- A vulnerability object (`core.data.kb.vuln.vuln`) restricted to the fields
this plugin sets: URL, response id, severity, name and description. -/
structure vuln where
  url : String
  id : Nat
  severity : Severity
  name : String
  desc : String
deriving DecidableEq

/-- ASCII embedding of Python `str.lower`. -/
def pyLower (s : String) : String :=
  String.mk (s.toList.map Char.toLower)

/-- ASCII embedding of Python `str.upper`. -/
def pyUpper (s : String) : String :=
  String.mk (s.toList.map Char.toUpper)

/-- The characters stripped by Python `str.strip()` (ASCII whitespace). -/
def pyIsSpace (c : Char) : Bool :=
  c == ' ' || c == '\t' || c == '\n' || c == '\r' ||
  c == Char.ofNat 11 || c == Char.ofNat 12

/-- Embedding of Python `str.strip()`: drop whitespace from both ends. -/
def pyStrip (s : String) : String :=
  String.mk (((s.toList.dropWhile pyIsSpace).reverse.dropWhile pyIsSpace).reverse)

/-- `listStarts n h` holds when the list `n` is an initial segment of `h`. -/
def listStarts : List Char → List Char → Bool
  | [], _ => true
  | _ :: _, [] => false
  | a :: as, b :: bs => a == b && listStarts as bs

/-- `listHasSub n h` holds when `n` occurs contiguously inside `h`. -/
def listHasSub (needle : List Char) : List Char → Bool
  | [] => listStarts needle []
  | b :: bs => listStarts needle (b :: bs) || listHasSub needle bs

/-- Embedding of the Python membership test `needle in hay` on strings. -/
def pyContains (hay needle : String) : Bool :=
  listHasSub needle.toList hay.toList

/-- Splitting a character list at every comma; embedding of Python
`str.split(',')` (empty pieces are kept, the empty string yields `[""]`). -/
def splitComma : List Char → List (List Char)
  | [] => [[]]
  | c :: cs =>
    match splitComma cs with
    | [] => [[]]
    | r :: rs => if c == ',' then [] :: r :: rs else (c :: r) :: rs

/-- Embedding of Python `str.split(',')`. -/
def pySplit (s : String) : List String :=
  (splitComma s.toList).map String.mk

/-- Embedding of Python `set(...)` construction over strings: deduplication,
keeping the first occurrence of each element. -/
def pySetDedup (l : List String) : List String :=
  l.foldl (fun acc m => if m ∈ acc then acc else acc ++ [m]) []

/-- Embedding of Python `sep.join(l)`. -/
def pyJoin (sep : String) (l : List String) : String :=
  String.intercalate sep l

/-- An apostrophe character, used inside several report messages. -/
def apos : Char := Char.ofNat 39

/-- `cors_origin.MAX_REPEATED_REPORTS`. -/
def MAX_REPEATED_REPORTS : Nat := 3

/-- `cors_origin.SENSITIVE_METHODS`. -/
def SENSITIVE_METHODS : List String := ["PUT", "DELETE"]

/-- `cors_origin.COMMON_METHODS`. -/
def COMMON_METHODS : List String := ["POST", "GET", "OPTIONS", "PUT", "DELETE"]

/-- Modelled from the spec: the `Access-Control-Allow-Origin` header-name
constant exported by `core.controllers.cors.utils`, a module that is not part
of this source tree; the spec's Header Extractor section names this header. -/
def ACCESS_CONTROL_ALLOW_ORIGIN : String := "Access-Control-Allow-Origin"

/-- Modelled from the spec: the `Access-Control-Allow-Credentials` header-name
constant exported by `core.controllers.cors.utils` (not in this source tree). -/
def ACCESS_CONTROL_ALLOW_CREDENTIALS : String := "Access-Control-Allow-Credentials"

/-- Modelled from the spec: the `Access-Control-Allow-Methods` header-name
constant exported by `core.controllers.cors.utils` (not in this source tree). -/
def ACCESS_CONTROL_ALLOW_METHODS : String := "Access-Control-Allow-Methods"

/-- The mutable state of a `cors_origin` plugin instance: the configured
origin header value and the internal throttling variables set in
`cors_origin.__init__`. -/
structure cors_origin where
  origin_header_value : Option String
  reported_global : List String
  universal_allow_counter : Nat
  origin_echo_counter : Nat
  universal_origin_allow_creds_counter : Nat
  allow_methods_counter : Nat
deriving DecidableEq

/-- The state built by `cors_origin.__init__`. -/
def cors_origin.init : cors_origin where
  origin_header_value := some "http://w3af.sourceforge.net/"
  reported_global := []
  universal_allow_counter := 0
  origin_echo_counter := 0
  universal_origin_allow_creds_counter := 0
  allow_methods_counter := 0

/-- The four counter attribute names passed to `_filter_report` (the plugin
addresses them with `getattr`/`setattr` by name; we model the closed set of
names that actually occur as an enumeration). -/
inductive CounterAttr where
  | universal_allow_counter
  | origin_echo_counter
  | universal_origin_allow_creds_counter
  | allow_methods_counter
deriving DecidableEq

/-- `getattr(self, counter)` for the four counter attributes. -/
def getCounter (s : cors_origin) : CounterAttr → Nat
  | .universal_allow_counter => s.universal_allow_counter
  | .origin_echo_counter => s.origin_echo_counter
  | .universal_origin_allow_creds_counter => s.universal_origin_allow_creds_counter
  | .allow_methods_counter => s.allow_methods_counter

/-- `setattr(self, counter, n)` for the four counter attributes. -/
def setCounter (s : cors_origin) : CounterAttr → Nat → cors_origin
  | .universal_allow_counter, n => { s with universal_allow_counter := n }
  | .origin_echo_counter, n => { s with origin_echo_counter := n }
  | .universal_origin_allow_creds_counter, n =>
      { s with universal_origin_allow_creds_counter := n }
  | .allow_methods_counter, n => { s with allow_methods_counter := n }

/-- Result of one plugin method call: the returned vulnerability list, the new
instance state, the vulnerabilities appended to the knowledge base
(`kb.kb.append`) and the messages sent to `om.out.vulnerability`, in order. -/
structure RuleResult where
  res : List vuln
  st : cors_origin
  kb : List vuln
  om : List String
deriving DecidableEq

/-- The description of the collapsed summary vulnerability built in
`_filter_report` (`msg % (self.MAX_REPEATED_REPORTS, section)`). -/
def filter_report_desc (sect : String) : String :=
  "More than " ++ toString MAX_REPEATED_REPORTS ++
  " URLs in the Web application under analysis returned a CORS response" ++
  " that triggered the " ++ sect ++
  " detection. Given that this seems to be an issue that affects all of the" ++
  " site URLs, the scanner will not report any other specific" ++
  " vulnerabilities of this type."

/-- The unformatted message template of `_filter_report`; the source passes
this template (not the formatted description) to `om.out.vulnerability`. -/
def filter_report_msg_template : String :=
  "More than %s URLs in the Web application under analysis returned a CORS" ++
  " response that triggered the %s detection. Given that this seems to be" ++
  " an issue that affects all of the site URLs, the scanner will not report" ++
  " any other specific vulnerabilities of this type."

/-- `cors_origin._filter_report`: the report throttle.  Given the counter
attribute name, the section label, the severity to use for a summary and the
raw findings of one analysis method, it either passes the findings through
(incrementing the counter while it is still `<= MAX_REPEATED_REPORTS`),
or emits the collapsed summary finding once per section, or suppresses. -/
def filter_report (s : cors_origin) (counter : CounterAttr) (sect : String)
    (vuln_severity : Severity) (analysis_response : List vuln) : RuleResult :=
  match analysis_response with
  | [] => ⟨[], s, [], []⟩
  | v0 :: _ =>
    let counter_val := getCounter s counter
    if counter_val ≤ MAX_REPEATED_REPORTS then
      ⟨analysis_response, setCounter s counter (counter_val + 1), [], []⟩
    else if sect ∉ s.reported_global then
      let v : vuln :=
        { url := v0.url, id := v0.id, severity := vuln_severity,
          name := "Multiple CORS misconfigurations",
          desc := filter_report_desc sect }
      ⟨[v], { s with reported_global := sect :: s.reported_global },
        [v], [filter_report_msg_template]⟩
    else
      ⟨[], s, [], []⟩

/-- The vulnerability object built by `_universal_allow` when
`allow_origin == "*"`. -/
def universal_allow_vuln (req_url : String) (rid : Nat) : vuln where
  url := req_url
  id := rid
  severity := Severity.LOW
  name := "Access-Control-Allow-Origin set to \"*\""
  desc :=
    "The remote Web application, specifically \"" ++ req_url ++
    "\", returned an " ++ ACCESS_CONTROL_ALLOW_ORIGIN ++
    " header with the value set to \"*\" which is insecure and leaves the" ++
    " application open to Cross-domain attacks."

/-- The unformatted message template of `_universal_allow`; the source passes
this template (the `%s` placeholders are never substituted in the variable
that reaches `om.out.vulnerability`). -/
def universal_allow_msg_template : String :=
  "The remote Web application, specifically \"%s\", returned an %s header" ++
  " with the value set to \"*\" which is insecure and leaves the application" ++
  " open to Cross-domain attacks."

/-- `cors_origin._universal_allow`: fires when `allow_origin == '*'`. -/
def universal_allow (s : cors_origin) (req_url url origin : String) (rid : Nat)
    (allow_origin allow_credentials allow_methods : Option String) : RuleResult :=
  if allow_origin = some "*" then
    let v := universal_allow_vuln req_url rid
    let fr := filter_report s .universal_allow_counter "universal allow-origin"
      Severity.MEDIUM [v]
    ⟨fr.res, fr.st, v :: fr.kb, universal_allow_msg_template :: fr.om⟩
  else
    ⟨[], s, [], []⟩

/-- The computation of the `allow_credentials` boolean shared by
`_origin_echo` and `_universal_origin_allow_creds`: `False` when the header is
absent, otherwise whether `'true'` occurs in the lower-cased header value. -/
def pyCredsTrue : Option String → Bool
  | none => false
  | some s => pyContains (pyLower s) "true"

/-- The vulnerability object built by `_origin_echo`; its severity, name and
description depend on the computed `allow_credentials` boolean. -/
def origin_echo_vuln (req_url : String) (rid : Nat) (allow_credentials : Bool) :
    vuln :=
  if allow_credentials then
    { url := req_url, id := rid, severity := Severity.HIGH,
      name := "Insecure Access-Control-Allow-Origin with credentials",
      desc :=
        "The remote Web application, specifically \"" ++ req_url ++
        "\", returned an " ++ ACCESS_CONTROL_ALLOW_ORIGIN ++
        " header with the value set to the value sent in the request" ++
        String.mk [apos] ++ "s Origin header and a " ++
        ACCESS_CONTROL_ALLOW_CREDENTIALS ++
        " header with the value set to \"true\", which is insecure and" ++
        " leaves the application open to Cross-domain attacks which can" ++
        " affect logged-in users." }
  else
    { url := req_url, id := rid, severity := Severity.LOW,
      name := "Insecure Access-Control-Allow-Origin",
      desc :=
        "The remote Web application, specifically \"" ++ req_url ++
        "\", returned an " ++ ACCESS_CONTROL_ALLOW_ORIGIN ++
        " header with the value set to the value sent in the request" ++
        String.mk [apos] ++
        "s Origin header, which is insecure and leaves the application open" ++
        " to Cross-domain attacks." }

/-- `cors_origin._origin_echo`: fires when the lower-cased `allow_origin`
contains the probe's `origin` value as a substring. -/
def origin_echo (s : cors_origin) (req_url url origin : String) (rid : Nat)
    (allow_origin allow_credentials_str allow_methods : Option String) :
    RuleResult :=
  match allow_origin with
  | none => ⟨[], s, [], []⟩
  | some ao =>
    let allow_origin_low := pyLower ao
    let allow_credentials := pyCredsTrue allow_credentials_str
    if pyContains allow_origin_low origin then
      let v := origin_echo_vuln req_url rid allow_credentials
      let fr := filter_report s .origin_echo_counter
        "origin echoed in allow-origin" Severity.HIGH [v]
      ⟨fr.res, fr.st, v :: fr.kb, v.desc :: fr.om⟩
    else
      ⟨[], s, [], []⟩

/-- The vulnerability object built by `_universal_origin_allow_creds`. -/
def universal_origin_allow_creds_vuln (req_url : String) (rid : Nat) : vuln where
  url := req_url
  id := rid
  severity := Severity.INFORMATION
  name := "Incorrect withCredentials implementation"
  desc :=
    "The remote Web application, specifically \"" ++ req_url ++
    "\", returned an " ++ ACCESS_CONTROL_ALLOW_ORIGIN ++
    " header with the value set to \"*\"  and an " ++
    ACCESS_CONTROL_ALLOW_CREDENTIALS ++
    " header with the value set to \"true\" which according to Mozilla" ++
    String.mk [apos] ++
    "s documentation is invalid. This implementation error might affect the" ++
    " application behavior."

/-- The unformatted message template of `_universal_origin_allow_creds`; as in
`_universal_allow`, the template itself reaches `om.out.vulnerability`. -/
def universal_origin_allow_creds_msg_template : String :=
  "The remote Web application, specifically \"%s\", returned an %s header" ++
  " with the value set to \"*\"  and an %s header with the value set to" ++
  " \"true\" which according to Mozilla" ++ String.mk [apos] ++
  "s documentation is invalid. This implementation error might affect the" ++
  " application behavior."

/-- `cors_origin._universal_origin_allow_creds`: fires when the computed
`allow_credentials` boolean is set and `allow_origin == '*'`. -/
def universal_origin_allow_creds (s : cors_origin) (req_url url origin : String)
    (rid : Nat) (allow_origin allow_credentials_str allow_methods : Option String) :
    RuleResult :=
  let allow_credentials := pyCredsTrue allow_credentials_str
  if allow_credentials = true ∧ allow_origin = some "*" then
    let v := universal_origin_allow_creds_vuln req_url rid
    let fr := filter_report s .universal_origin_allow_creds_counter
      "withCredentials CORS implementation error" Severity.INFORMATION [v]
    ⟨fr.res, fr.st, v :: fr.kb, universal_origin_allow_creds_msg_template :: fr.om⟩
  else
    ⟨[], s, [], []⟩

/-- The `(report_sensitive, report_strange)` pair computed by
`_allow_methods` from the raw `Access-Control-Allow-Methods` value: split on
commas, strip, upper-case, deduplicate, then partition against
`SENSITIVE_METHODS` and `COMMON_METHODS`.  Python iterates sets in an
unspecified order; we keep first-occurrence order, which is only visible in
the order of the joined method names inside the description text. -/
def allow_methods_sets (allow_methods : String) : List String × List String :=
  let allow_methods_list := pySplit allow_methods
  let allow_methods_list := allow_methods_list.map pyStrip
  let allow_methods_list := allow_methods_list.map pyUpper
  let allow_methods_set := pySetDedup allow_methods_list
  let report_sensitive := SENSITIVE_METHODS.filter (fun m => m ∈ allow_methods_set)
  let report_strange := allow_methods_set.filter (fun m => m ∉ COMMON_METHODS)
  (report_sensitive, report_strange)

/-- The vulnerability object built by `_allow_methods`; the name and the
description tail depend on which of the two reported sets are non-empty. -/
def allow_methods_vuln (req_url url : String) (rid : Nat)
    (allow_methods : String) : vuln :=
  let sets := allow_methods_sets allow_methods
  let report_sensitive := sets.1
  let report_strange := sets.2
  let base :=
    "The remote Web application, specifically \"" ++ url ++
    "\", returned an " ++ ACCESS_CONTROL_ALLOW_METHODS ++
    " header with the value set to \"" ++ allow_methods ++
    "\" which is insecure"
  if report_sensitive ≠ [] ∧ report_strange ≠ [] then
    { url := req_url, id := rid, severity := Severity.LOW,
      name := "Sensitive and strange CORS methods enabled",
      desc := base ++ " since it allows the following sensitive HTTP methods: "
        ++ pyJoin ", " report_sensitive ++
        " and the following uncommon HTTP methods: " ++
        pyJoin ", " report_strange ++ "." }
  else if report_sensitive ≠ [] then
    { url := req_url, id := rid, severity := Severity.LOW,
      name := "Sensitive CORS methods enabled",
      desc := base ++ " since it allows the following sensitive HTTP methods: "
        ++ pyJoin ", " report_sensitive ++ "." }
  else
    { url := req_url, id := rid, severity := Severity.LOW,
      name := "Uncommon CORS methods enabled",
      desc := base ++ " since it allows the following uncommon HTTP methods: "
        ++ pyJoin ", " report_strange ++ "." }

/-- `cors_origin._allow_methods`: fires when the `Access-Control-Allow-Methods`
header is present and at least one sensitive or strange method is allowed. -/
def allow_methods (s : cors_origin) (req_url url origin : String) (rid : Nat)
    (allow_origin allow_credentials allow_methods_str : Option String) :
    RuleResult :=
  match allow_methods_str with
  | none => ⟨[], s, [], []⟩
  | some ms =>
    let sets := allow_methods_sets ms
    if sets.1 ≠ [] ∨ sets.2 ≠ [] then
      let v := allow_methods_vuln req_url url rid ms
      let fr := filter_report s .allow_methods_counter
        "sensitive and uncommon methods" Severity.LOW [v]
      ⟨fr.res, fr.st, v :: fr.kb, v.desc :: fr.om⟩
    else
      ⟨[], s, [], []⟩

/-- `cors_origin._analyze_server_response`: run the four analysis methods in
their source order, accumulating results, state and side-effect logs. -/
def analyze_server_response (s : cors_origin) (req_url url origin : String)
    (rid : Nat) (allow_origin_h allow_credentials_h allow_methods_h : Option String) :
    RuleResult :=
  let r1 := universal_allow s req_url url origin rid
    allow_origin_h allow_credentials_h allow_methods_h
  let r2 := origin_echo r1.st req_url url origin rid
    allow_origin_h allow_credentials_h allow_methods_h
  let r3 := universal_origin_allow_creds r2.st req_url url origin rid
    allow_origin_h allow_credentials_h allow_methods_h
  let r4 := allow_methods r3.st req_url url origin rid
    allow_origin_h allow_credentials_h allow_methods_h
  ⟨r1.res ++ r2.res ++ r3.res ++ r4.res, r4.st,
   r1.kb ++ r2.kb ++ r3.kb ++ r4.kb,
   r1.om ++ r2.om ++ r3.om ++ r4.om⟩

/-- `cors_origin.set_options`: store the supplied `origin_header_value`
option, then raise a `w3afException` (returned here as `some message`) when
the stored value is `None` or empty after stripping. -/
def set_options (s : cors_origin) (origin_header_value : Option String) :
    cors_origin × Option String :=
  let s1 := { s with origin_header_value := origin_header_value }
  match origin_header_value with
  | none =>
    (s1, some "Please enter a valid value for the \"Origin\" HTTP header.")
  | some v =>
    if (pyStrip v).length = 0 then
      (s1, some "Please enter a valid value for the \"Origin\" HTTP header.")
    else
      (s1, none)

/-- The section label each counter attribute is paired with at the four
`_filter_report` call sites. -/
def sectionOf : CounterAttr → String
  | .universal_allow_counter => "universal allow-origin"
  | .origin_echo_counter => "origin echoed in allow-origin"
  | .universal_origin_allow_creds_counter => "withCredentials CORS implementation error"
  | .allow_methods_counter => "sensitive and uncommon methods"

/-- The summary severity each counter attribute is paired with at the four
`_filter_report` call sites. -/
def sevOf : CounterAttr → Severity
  | .universal_allow_counter => Severity.MEDIUM
  | .origin_echo_counter => Severity.HIGH
  | .universal_origin_allow_creds_counter => Severity.INFORMATION
  | .allow_methods_counter => Severity.LOW

/-- One call to the throttle as the rules make it during a scan session: the
rule kind (its counter attribute) and the raw finding of that rule, if any
(the call sites always pass a singleton list when the rule fired). -/
structure ThrottleCall where
  kind : CounterAttr
  payload : Option vuln
deriving DecidableEq

/-- Perform one `ThrottleCall` exactly as the corresponding call site does:
section label and summary severity are determined by the rule kind. -/
def applyCall (s : cors_origin) (c : ThrottleCall) : RuleResult :=
  filter_report s c.kind (sectionOf c.kind) (sevOf c.kind) c.payload.toList

/-- Run a sequence of throttle calls, returning the list of outputs (one per
call, in order) and the final state. -/
def runCalls (s : cors_origin) : List ThrottleCall → List (List vuln) × cors_origin
  | [] => ([], s)
  | c :: cs =>
    let r := applyCall s c
    let rest := runCalls r.st cs
    (r.res :: rest.1, rest.2)

/-- Total number of findings emitted for rule kind `k` across a sequence of
throttle calls, given the per-call outputs. -/
def countFor (k : CounterAttr) : List ThrottleCall → List (List vuln) → Nat
  | [], _ => 0
  | _ :: _, [] => 0
  | c :: cs, o :: os => (if c.kind = k then o.length else 0) + countFor k cs os

/-- Whether a throttle output contains the synthesized summary finding (the
only finding the throttle itself creates carries this fixed name). -/
def isSummaryOutput (out : List vuln) : Bool :=
  out.any (fun v => v.name == "Multiple CORS misconfigurations")

/-- A sample raw finding used in concrete counterexamples and witnesses. -/
def v0 : vuln := universal_allow_vuln "http://x.test/a" 1

/-- A sample throttle call used in concrete counterexamples and witnesses. -/
def c0 : ThrottleCall := ⟨.universal_allow_counter, some v0⟩

/-- A state whose `_universal_allow_counter` has already passed the
threshold (as after four passed-through findings of that kind). -/
def sFour : cors_origin := { cors_origin.init with universal_allow_counter := 4 }

/-- A state whose `_universal_allow_counter` has passed the threshold and
whose section has already been summarized (suppression regime). -/
def sSup : cors_origin :=
  { cors_origin.init with
      universal_allow_counter := 4
      reported_global := ["universal allow-origin"] }

theorem getCounter_setCounter (s : cors_origin) (a b : CounterAttr) (n : Nat) :
    getCounter (setCounter s a n) b = if b = a then n else getCounter s b := by
  cases a <;> cases b <;> simp [getCounter, setCounter]

theorem reported_global_setCounter (s : cors_origin) (a : CounterAttr) (n : Nat) :
    (setCounter s a n).reported_global = s.reported_global := by
  cases a <;> rfl

theorem getCounter_updateRG (s : cors_origin) (x : List String) (k : CounterAttr) :
    getCounter { s with reported_global := x } k = getCounter s k := by
  cases k <;> rfl

theorem sectionOf_inj (a b : CounterAttr) (h : sectionOf a = sectionOf b) : a = b := by
  revert h
  cases a <;> cases b <;> decide

theorem getCounter_filter_report (s : cors_origin) (counter : CounterAttr)
    (sect : String) (sev : Severity) (resp : List vuln) (k : CounterAttr) :
    getCounter s k ≤ getCounter (filter_report s counter sect sev resp).st k := by
  cases resp with
  | nil => exact le_refl _
  | cons v t =>
    simp only [filter_report]
    by_cases h1 : getCounter s counter ≤ MAX_REPEATED_REPORTS
    · rw [if_pos h1]
      dsimp only
      rw [getCounter_setCounter]
      by_cases hk : k = counter
      · rw [if_pos hk]; subst hk; exact Nat.le_succ _
      · rw [if_neg hk]
    · rw [if_neg h1]
      by_cases h2 : sect ∉ s.reported_global
      · rw [if_pos h2]
        dsimp only
        exact le_of_eq (getCounter_updateRG s (sect :: s.reported_global) k).symm
      · rw [if_neg h2]

theorem mem_rg_filter_report (s : cors_origin) (counter : CounterAttr)
    (sect : String) (sev : Severity) (resp : List vuln) (x : String)
    (h : x ∈ s.reported_global) :
    x ∈ (filter_report s counter sect sev resp).st.reported_global := by
  cases resp with
  | nil => exact h
  | cons v t =>
    simp only [filter_report]
    by_cases h1 : getCounter s counter ≤ MAX_REPEATED_REPORTS
    · rw [if_pos h1]
      dsimp only
      rw [reported_global_setCounter]
      exact h
    · rw [if_neg h1]
      by_cases h2 : sect ∉ s.reported_global
      · rw [if_pos h2]
        exact List.mem_cons_of_mem _ h
      · rw [if_neg h2]
        exact h

theorem getCounter_runCalls (cs : List ThrottleCall) :
    ∀ (s : cors_origin) (k : CounterAttr),
      getCounter s k ≤ getCounter (runCalls s cs).2 k := by
  induction cs with
  | nil => intro s k; exact le_refl _
  | cons c cs ih =>
    intro s k
    simp only [runCalls]
    exact le_trans (getCounter_filter_report s c.kind _ _ _ k) (ih _ k)

theorem mem_rg_runCalls (cs : List ThrottleCall) :
    ∀ (s : cors_origin) (x : String), x ∈ s.reported_global →
      x ∈ (runCalls s cs).2.reported_global := by
  induction cs with
  | nil => intro s x h; exact h
  | cons c cs ih =>
    intro s x h
    simp only [runCalls]
    exact ih _ x (mem_rg_filter_report s c.kind _ _ _ x h)

theorem applyCall_suppressed (s : cors_origin) (c : ThrottleCall)
    (h1 : sectionOf c.kind ∈ s.reported_global)
    (h2 : MAX_REPEATED_REPORTS < getCounter s c.kind) :
    (applyCall s c).res = [] := by
  unfold applyCall
  cases hp : c.payload with
  | none => rfl
  | some v =>
    simp only [Option.toList, filter_report]
    rw [if_neg (by omega), if_neg (not_not_intro h1)]

theorem applyCall_summary_state (s : cors_origin) (c : ThrottleCall)
    (hname : ∀ v, c.payload = some v → v.name ≠ "Multiple CORS misconfigurations")
    (hsum : isSummaryOutput (applyCall s c).res = true) :
    sectionOf c.kind ∈ (applyCall s c).st.reported_global ∧
    MAX_REPEATED_REPORTS < getCounter (applyCall s c).st c.kind := by
  unfold applyCall at hsum ⊢
  cases hp : c.payload with
  | none =>
    rw [hp] at hsum
    simp [isSummaryOutput, filter_report] at hsum
  | some v =>
    rw [hp] at hsum
    simp only [Option.toList, filter_report] at hsum ⊢
    by_cases h1 : getCounter s c.kind ≤ MAX_REPEATED_REPORTS
    · rw [if_pos h1] at hsum
      dsimp only at hsum
      simp [isSummaryOutput] at hsum
      exact absurd hsum (hname v hp)
    · rw [if_neg h1] at hsum ⊢
      by_cases h2 : sectionOf c.kind ∉ s.reported_global
      · rw [if_pos h2]
        dsimp only
        refine ⟨List.mem_cons_self _ _, ?_⟩
        have heq := getCounter_updateRG s (sectionOf c.kind :: s.reported_global) c.kind
        rw [heq]
        omega
      · rw [if_neg h2] at hsum
        dsimp only at hsum
        simp [isSummaryOutput] at hsum

theorem countFor_step (s : cors_origin) (c : ThrottleCall) (k : CounterAttr) :
    (if c.kind = k then (applyCall s c).res.length else 0)
      + ((MAX_REPEATED_REPORTS + 1 - getCounter (applyCall s c).st k)
        + (if sectionOf k ∈ (applyCall s c).st.reported_global then 0 else 1))
    ≤ (MAX_REPEATED_REPORTS + 1 - getCounter s k)
      + (if sectionOf k ∈ s.reported_global then 0 else 1) := by
  unfold applyCall
  cases hp : c.payload with
  | none => simp [filter_report]
  | some v =>
    simp only [Option.toList, filter_report]
    by_cases h1 : getCounter s c.kind ≤ MAX_REPEATED_REPORTS
    · -- pass-through branch
      rw [if_pos h1]
      dsimp only
      rw [getCounter_setCounter, reported_global_setCounter]
      by_cases hk : c.kind = k
      · subst hk
        rw [if_pos rfl, if_pos rfl]
        simp only [List.length_cons, List.length_nil]
        omega
      · rw [if_neg hk, if_neg (fun h : k = c.kind => hk h.symm)]
        omega
    · rw [if_neg h1]
      by_cases h2 : sectionOf c.kind ∉ s.reported_global
      · -- summary branch
        rw [if_pos h2]
        dsimp only
        have heq := getCounter_updateRG s (sectionOf c.kind :: s.reported_global) k
        rw [heq]
        by_cases hk : c.kind = k
        · subst hk
          rw [if_pos rfl, if_pos (List.mem_cons_self _ _), if_neg h2]
          simp only [List.length_cons, List.length_nil]
          omega
        · have hnm : sectionOf k ∉ sectionOf c.kind :: s.reported_global →
              sectionOf k ∈ s.reported_global → False := fun hn hi =>
            hn (List.mem_cons_of_mem _ hi)
          rw [if_neg hk]
          by_cases hm : sectionOf k ∈ s.reported_global
          · rw [if_pos hm, if_pos (List.mem_cons_of_mem _ hm)]
            omega
          · have hout : sectionOf k ∉ sectionOf c.kind :: s.reported_global := by
              intro hmem
              rcases List.mem_cons.mp hmem with heq | hin
              · exact hk (sectionOf_inj c.kind k heq.symm)
              · exact hm hin
            rw [if_neg hm, if_neg hout]
            omega
      · -- suppressed branch
        rw [if_neg h2]
        simp

theorem countFor_runCalls_le (k : CounterAttr) (cs : List ThrottleCall) :
    ∀ s : cors_origin,
      countFor k cs (runCalls s cs).1 ≤
        (MAX_REPEATED_REPORTS + 1 - getCounter s k)
          + (if sectionOf k ∈ s.reported_global then 0 else 1) := by
  induction cs with
  | nil => intro s; simp [runCalls, countFor]
  | cons c cs ih =>
    intro s
    simp only [runCalls, countFor]
    exact le_trans (Nat.add_le_add_left (ih (applyCall s c).st) _) (countFor_step s c k)

/-- C1 counterexample: starting from the fresh `__init__` state and feeding
five non-empty calls of the same rule kind, the fourth call still returns the
individual raw finding (not a summary — its name is the raw finding's name,
not `Multiple CORS misconfigurations`), and the fifth call does not return the
empty list.  This refutes the claim that the fourth call yields the summary
and the fifth call yields nothing. -/
theorem filter_report_fourth_call_counterexample :
    ((runCalls cors_origin.init [c0, c0, c0, c0, c0]).1.get? 3 = some [v0]) ∧
    v0.name ≠ "Multiple CORS misconfigurations" ∧
    ((runCalls cors_origin.init [c0, c0, c0, c0, c0]).1.get? 4 ≠ some []) := by
  decide

/-- C1 (amended): the guard `counter_val <= MAX_REPEATED_REPORTS` is checked
before the increment, so from a fresh state the throttle passes the
individual finding through on the first FOUR calls for a rule kind, returns
the single synthesized summary finding on the FIFTH call, and returns the
empty list on the sixth call. -/
theorem filter_report_four_then_summary_then_empty (k : CounterAttr) (v : vuln) :
    (runCalls cors_origin.init
      [⟨k, some v⟩, ⟨k, some v⟩, ⟨k, some v⟩, ⟨k, some v⟩, ⟨k, some v⟩, ⟨k, some v⟩]).1 =
      [[v], [v], [v], [v],
       [⟨v.url, v.id, sevOf k, "Multiple CORS misconfigurations",
         filter_report_desc (sectionOf k)⟩],
       []] := by
  cases k <;> rfl

/-- C2 counterexample: for rule kind `_universal_allow_counter`, a session of
five non-empty throttle calls emits `MAX_REPEATED_REPORTS + 2 = 5` findings
in total (four individual ones plus the summary), which exceeds the claimed
bound `threshold + 1 = 4`. -/
theorem filter_report_total_counterexample :
    countFor CounterAttr.universal_allow_counter [c0, c0, c0, c0, c0]
        (runCalls cors_origin.init [c0, c0, c0, c0, c0]).1 =
      MAX_REPEATED_REPORTS + 2 ∧
    ¬ (MAX_REPEATED_REPORTS + 2 ≤ MAX_REPEATED_REPORTS + 1) := by
  decide

/-- C2 (amended): for every rule kind and every sequence of throttle calls in
one scan session (each call carrying at most one raw finding, as at the four
call sites), the total number of findings emitted for that kind is at most
`MAX_REPEATED_REPORTS + 2 = 5`: four allowed individual ones plus one
summary. -/
theorem filter_report_session_total_bound (k : CounterAttr)
    (calls : List ThrottleCall) :
    countFor k calls (runCalls cors_origin.init calls).1 ≤
      MAX_REPEATED_REPORTS + 2 := by
  have h := countFor_runCalls_le k calls cors_origin.init
  have h0 : getCounter cors_origin.init k = 0 := by cases k <;> rfl
  rw [h0] at h
  have hrg : (cors_origin.init).reported_global = [] := rfl
  rw [hrg] at h
  rw [if_neg (List.not_mem_nil (sectionOf k))] at h
  omega

/-- C3 (confirmed): once a throttle call for rule kind `k` returns the
synthesized summary finding (recognizable by its fixed name, which no raw
rule finding carries), every later throttle call for kind `k` in the same
scan session returns the empty list — in particular at most one summary is
ever returned per kind, because a summary output is non-empty. -/
theorem filter_report_at_most_one_summary (k : CounterAttr)
    (calls1 : List ThrottleCall) (c : ThrottleCall) (hk : c.kind = k)
    (hname : ∀ v, c.payload = some v → v.name ≠ "Multiple CORS misconfigurations")
    (hsum : isSummaryOutput (applyCall (runCalls cors_origin.init calls1).2 c).res = true) :
    ∀ (mid : List ThrottleCall) (d : ThrottleCall), d.kind = k →
      (applyCall
        (runCalls (applyCall (runCalls cors_origin.init calls1).2 c).st mid).2 d).res = [] := by
  intro mid d hd
  obtain ⟨hmem, hcnt⟩ :=
    applyCall_summary_state (runCalls cors_origin.init calls1).2 c hname hsum
  rw [hk] at hmem hcnt
  apply applyCall_suppressed
  · rw [hd]
    exact mem_rg_runCalls mid _ _ hmem
  · rw [hd]
    exact lt_of_lt_of_le hcnt
      (getCounter_runCalls mid (applyCall (runCalls cors_origin.init calls1).2 c).st k)

/-- Witness for C3: after four passed-through findings of kind
`_universal_allow_counter`, the fifth call returns the summary, and the next
call of that kind returns the empty list. -/
theorem filter_report_at_most_one_summary_witness :
    (applyCall
      (runCalls (applyCall (runCalls cors_origin.init [c0, c0, c0, c0]).2 c0).st []).2
      c0).res = [] := by
  exact filter_report_at_most_one_summary CounterAttr.universal_allow_counter
    [c0, c0, c0, c0] c0 rfl
    (by
      intro v hv
      have hv' : v0 = v := by simpa [c0] using hv
      subst hv'
      decide)
    (by decide) [] c0 rfl

/-- C9 counterexample: with the counter already past the threshold, a
non-empty throttle call (summary branch, and likewise the suppressed branch)
leaves the counter at 4 instead of incrementing it to 5. -/
theorem filter_report_counter_not_incremented_counterexample :
    ([v0] : List vuln) ≠ [] ∧
    getCounter (filter_report sFour .universal_allow_counter
        "universal allow-origin" Severity.MEDIUM [v0]).st .universal_allow_counter = 4 ∧
    getCounter sFour .universal_allow_counter + 1 = 5 ∧ (4 : Nat) ≠ 5 ∧
    getCounter (filter_report sSup .universal_allow_counter
        "universal allow-origin" Severity.MEDIUM [v0]).st .universal_allow_counter = 4 := by
  decide

/-- C9 (amended): a throttle call with an empty raw finding list changes
nothing; a non-empty call increments the counter for its rule kind only while
the counter has not yet passed `MAX_REPEATED_REPORTS` (the pass-through
branch) and leaves it unchanged in the summary and suppressed branches. -/
theorem filter_report_counter_step_spec (s : cors_origin) (k : CounterAttr)
    (sect : String) (sev : Severity) (resp : List vuln) :
    (resp = [] → filter_report s k sect sev resp = ⟨[], s, [], []⟩) ∧
    (resp ≠ [] → getCounter (filter_report s k sect sev resp).st k =
      if getCounter s k ≤ MAX_REPEATED_REPORTS then getCounter s k + 1
      else getCounter s k) := by
  constructor
  · intro h; subst h; rfl
  · intro h
    cases resp with
    | nil => exact absurd rfl h
    | cons v t =>
      simp only [filter_report]
      by_cases h1 : getCounter s k ≤ MAX_REPEATED_REPORTS
      · rw [if_pos h1, if_pos h1]
        dsimp only
        rw [getCounter_setCounter, if_pos rfl]
      · rw [if_neg h1, if_neg h1]
        by_cases h2 : sect ∉ s.reported_global
        · rw [if_pos h2]
          dsimp only
          exact getCounter_updateRG s (sect :: s.reported_global) k
        · rw [if_neg h2]

/-- Witness for C9 (amended): concrete instance at a state whose counter is
already past the threshold — the counter stays at 4. -/
theorem filter_report_counter_step_witness :
    getCounter (filter_report sFour .universal_allow_counter
        "universal allow-origin" Severity.MEDIUM [v0]).st .universal_allow_counter =
      if getCounter sFour .universal_allow_counter ≤ MAX_REPEATED_REPORTS then
        getCounter sFour .universal_allow_counter + 1
      else getCounter sFour .universal_allow_counter := by
  exact (filter_report_counter_step_spec sFour .universal_allow_counter
    "universal allow-origin" Severity.MEDIUM [v0]).2 (by decide)

/-- C4 (confirmed): `_origin_echo` builds its raw finding (appended to the
knowledge base) exactly when `allow_origin` is present and its lower-cased
value contains the probe origin as a substring; the finding has severity HIGH
and the credentials name exactly when `allow_credentials` is present and its
lower-cased value contains `true`, and severity LOW with the plain name
otherwise. -/
theorem origin_echo_spec (st : cors_origin) (req_url url origin : String)
    (rid : Nat) (ao ac am : Option String) :
    ((origin_echo st req_url url origin rid ao ac am).kb ≠ [] ↔
      ∃ s, ao = some s ∧ pyContains (pyLower s) origin = true) ∧
    (∀ s, ao = some s → pyContains (pyLower s) origin = true →
      (origin_echo st req_url url origin rid ao ac am).kb.head? =
        some (origin_echo_vuln req_url rid (pyCredsTrue ac))) ∧
    (pyCredsTrue ac = true ↔
      ∃ cs, ac = some cs ∧ pyContains (pyLower cs) "true" = true) ∧
    (((origin_echo_vuln req_url rid (pyCredsTrue ac)).severity = Severity.HIGH ∧
      (origin_echo_vuln req_url rid (pyCredsTrue ac)).name =
        "Insecure Access-Control-Allow-Origin with credentials") ↔
      pyCredsTrue ac = true) ∧
    (pyCredsTrue ac = false →
      (origin_echo_vuln req_url rid (pyCredsTrue ac)).severity = Severity.LOW ∧
      (origin_echo_vuln req_url rid (pyCredsTrue ac)).name =
        "Insecure Access-Control-Allow-Origin") := by
  refine ⟨?_, ?_, ?_, ?_, ?_⟩
  · cases ao with
    | none => simp [origin_echo]
    | some a =>
      by_cases hc : pyContains (pyLower a) origin = true
      · constructor
        · intro _
          exact ⟨a, rfl, hc⟩
        · intro _
          simp [origin_echo, hc]
      · simp [origin_echo, hc]
  · intro s hs hc
    subst hs
    simp [origin_echo, hc]
  · cases ac with
    | none => simp [pyCredsTrue]
    | some cs => simp [pyCredsTrue]
  · cases h : pyCredsTrue ac <;> simp [origin_echo_vuln, h]
  · intro h
    simp [origin_echo_vuln, h]

/-- Witness for C4: the spec's end-to-end scenario — probe origin
`http://evil.test`, reflected `Access-Control-Allow-Origin` and
`Access-Control-Allow-Credentials: true` — produces the HIGH-severity
credentialed finding. -/
theorem origin_echo_witness :
    (origin_echo cors_origin.init "http://x.test/a" "http://x.test/a"
        "http://evil.test" 1 (some "http://evil.test") (some "true") none).kb.head? =
      some (origin_echo_vuln "http://x.test/a" 1 (pyCredsTrue (some "true"))) ∧
    (origin_echo_vuln "http://x.test/a" 1 (pyCredsTrue (some "true"))).severity =
      Severity.HIGH := by
  constructor
  · exact (origin_echo_spec cors_origin.init "http://x.test/a" "http://x.test/a"
      "http://evil.test" 1 (some "http://evil.test") (some "true") none).2.1
      "http://evil.test" rfl (by decide)
  · exact ((origin_echo_spec cors_origin.init "http://x.test/a" "http://x.test/a"
      "http://evil.test" 1 (some "http://evil.test") (some "true") none).2.2.2.1.mpr
      (by decide)).1

/-- C5 (confirmed): `_universal_origin_allow_creds` builds its raw finding
exactly when the computed credentials flag is set and `allow_origin` is
exactly `*`; the finding has severity INFORMATION and the fixed name; and on
the spec's end-to-end scenario (`Access-Control-Allow-Origin: *`,
`Access-Control-Allow-Credentials: true`, no allow-methods header, fresh
counters, probe origin not a substring of `*`) the driver returns exactly two
findings: the LOW Wildcard-Allow one followed by the INFORMATION
Wildcard+Credentials one. -/
theorem universal_origin_allow_creds_spec (st : cors_origin)
    (req_url url origin : String) (rid : Nat) (ao ac am : Option String) :
    ((universal_origin_allow_creds st req_url url origin rid ao ac am).kb ≠ [] ↔
      (pyCredsTrue ac = true ∧ ao = some "*")) ∧
    (pyCredsTrue ac = true → ao = some "*" →
      (universal_origin_allow_creds st req_url url origin rid ao ac am).kb.head? =
        some (universal_origin_allow_creds_vuln req_url rid)) ∧
    (universal_origin_allow_creds_vuln req_url rid).severity =
      Severity.INFORMATION ∧
    (universal_origin_allow_creds_vuln req_url rid).name =
      "Incorrect withCredentials implementation" ∧
    (pyContains "*" origin = false →
      (analyze_server_response cors_origin.init req_url url origin rid
          (some "*") (some "true") none).res =
        [universal_allow_vuln req_url rid,
         universal_origin_allow_creds_vuln req_url rid]) ∧
    (universal_allow_vuln req_url rid).severity = Severity.LOW := by
  refine ⟨?_, ?_, rfl, rfl, ?_, rfl⟩
  · by_cases h : pyCredsTrue ac = true ∧ ao = some "*"
    · constructor
      · intro _
        exact h
      · intro _
        simp [universal_origin_allow_creds, h.1, h.2]
    · simp only [universal_origin_allow_creds]
      rw [if_neg h]
      simp [h]
  · intro h1 h2
    subst h2
    simp [universal_origin_allow_creds, h1]
  · intro h
    have h1 : universal_allow cors_origin.init req_url url origin rid
        (some "*") (some "true") none =
        ⟨[universal_allow_vuln req_url rid],
         { cors_origin.init with universal_allow_counter := 1 },
         [universal_allow_vuln req_url rid],
         [universal_allow_msg_template]⟩ := rfl
    have hpc : pyContains (pyLower "*") origin = false := h
    have h2 : origin_echo { cors_origin.init with universal_allow_counter := 1 }
        req_url url origin rid (some "*") (some "true") none =
        ⟨[], { cors_origin.init with universal_allow_counter := 1 }, [], []⟩ := by
      simp [origin_echo, hpc]
    have h3 : universal_origin_allow_creds
        { cors_origin.init with universal_allow_counter := 1 }
        req_url url origin rid (some "*") (some "true") none =
        ⟨[universal_origin_allow_creds_vuln req_url rid],
         { cors_origin.init with
             universal_allow_counter := 1
             universal_origin_allow_creds_counter := 1 },
         [universal_origin_allow_creds_vuln req_url rid],
         [universal_origin_allow_creds_msg_template]⟩ := rfl
    simp only [analyze_server_response, h1, h2, h3]
    rfl

/-- Witness for C5: the scenario instance at the default configured probe
origin, which is not a substring of `*`. -/
theorem universal_origin_allow_creds_witness :
    (analyze_server_response cors_origin.init "http://x.test/a" "http://x.test/a"
        "http://w3af.sourceforge.net/" 1 (some "*") (some "true") none).res =
      [universal_allow_vuln "http://x.test/a" 1,
       universal_origin_allow_creds_vuln "http://x.test/a" 1] := by
  exact (universal_origin_allow_creds_spec cors_origin.init "http://x.test/a"
    "http://x.test/a" "http://w3af.sourceforge.net/" 1 (some "*") (some "true")
    none).2.2.2.2.1 (by decide)

/-- C6 counterexample: the finding emitted by `_universal_allow` is named
with DOUBLE quotation marks around the asterisk
(`Access-Control-Allow-Origin set to "*"`), not with single quotes as the
claim states. -/
theorem universal_allow_name_counterexample :
    (universal_allow cors_origin.init "http://x.test/a" "http://x.test/a"
        "http://w3af.sourceforge.net/" 1 (some "*") none none).kb.head?.map vuln.name =
      some "Access-Control-Allow-Origin set to \"*\"" ∧
    "Access-Control-Allow-Origin set to \"*\"" ≠
      "Access-Control-Allow-Origin set to " ++ String.mk [apos, '*', apos] := by
  decide

/-- C6 (amended): `_universal_allow` builds its raw finding exactly when
`allow_origin` is byte-for-byte `*`, exactly one finding per probe regardless
of the other header values; the raw finding carries severity LOW and the name
`Access-Control-Allow-Origin set to "*"` (double quotation marks around the
asterisk), while the summary produced for this rule kind is keyed with
severity MEDIUM. -/
theorem universal_allow_spec (st : cors_origin) (req_url url origin : String)
    (rid : Nat) (ao ac am : Option String) :
    ((universal_allow st req_url url origin rid ao ac am).kb ≠ [] ↔ ao = some "*") ∧
    ((universal_allow st req_url url origin rid ao ac am).kb.head? =
      if ao = some "*" then some (universal_allow_vuln req_url rid) else none) ∧
    ((universal_allow cors_origin.init req_url url origin rid (some "*") ac am).res =
      [universal_allow_vuln req_url rid]) ∧
    (universal_allow_vuln req_url rid).severity = Severity.LOW ∧
    (universal_allow_vuln req_url rid).name =
      "Access-Control-Allow-Origin set to \"*\"" ∧
    (ao = some "*" → MAX_REPEATED_REPORTS < getCounter st .universal_allow_counter →
      "universal allow-origin" ∉ st.reported_global →
      (universal_allow st req_url url origin rid ao ac am).res =
        [⟨req_url, rid, Severity.MEDIUM, "Multiple CORS misconfigurations",
          filter_report_desc "universal allow-origin"⟩]) := by
  refine ⟨?_, ?_, rfl, rfl, rfl, ?_⟩
  · by_cases h : ao = some "*"
    · subst h
      simp [universal_allow]
    · simp [universal_allow, h]
  · by_cases h : ao = some "*"
    · subst h
      simp [universal_allow]
    · simp [universal_allow, h]
  · intro h1 h2 h3
    subst h1
    simp only [universal_allow]
    rw [if_pos trivial]
    dsimp only
    simp only [filter_report]
    rw [if_neg (by omega), if_pos h3]
    rfl

/-- Witness for C6 (amended): at a state whose counter has passed the
threshold and whose section is not yet summarized, the rule's output is the
summary finding carrying severity MEDIUM. -/
theorem universal_allow_spec_witness :
    (universal_allow sFour "http://x.test/a" "http://x.test/a"
        "http://w3af.sourceforge.net/" 1 (some "*") none none).res =
      [⟨"http://x.test/a", 1, Severity.MEDIUM, "Multiple CORS misconfigurations",
        filter_report_desc "universal allow-origin"⟩] := by
  exact (universal_allow_spec sFour "http://x.test/a" "http://x.test/a"
    "http://w3af.sourceforge.net/" 1 (some "*") none none).2.2.2.2.2 rfl
    (by decide) (by decide)

/-- C7 (confirmed): for `Access-Control-Allow-Methods: post, Get, TRACE` the
methods rule computes an empty sensitive set and the strange set `{TRACE}`,
and fires exactly one LOW finding with the strange-only name variant. -/
theorem allow_methods_post_get_trace :
    allow_methods_sets "post, Get, TRACE" = ([], ["TRACE"]) ∧
    (allow_methods cors_origin.init "http://x.test/a" "http://x.test/a"
        "http://w3af.sourceforge.net/" 1 none none (some "post, Get, TRACE")).res.map
        (fun v => (v.severity, v.name)) =
      [(Severity.LOW, "Uncommon CORS methods enabled")] := by
  constructor
  · rfl
  · rfl

/-- C8 (confirmed): `set_options` stores the supplied value and raises a
`w3afException` exactly when the value is `None` or is empty after
stripping whitespace. -/
theorem set_options_spec (st : cors_origin) (v : Option String) :
    ((set_options st v).2 ≠ none ↔
      v = none ∨ ∃ s, v = some s ∧ pyStrip s = "") ∧
    (set_options st v).1.origin_header_value = v := by
  constructor
  · cases v with
    | none => simp [set_options]
    | some s =>
      simp only [set_options]
      by_cases h : (pyStrip s).length = 0
      · rw [if_pos h]
        constructor
        · intro _
          refine Or.inr ⟨s, rfl, ?_⟩
          cases hs : pyStrip s with
          | mk d =>
            cases d with
            | nil => rfl
            | cons a l =>
              rw [hs] at h
              simp [String.length] at h
        · intro _
          exact fun hcon => Option.noConfusion hcon
      · rw [if_neg h]
        constructor
        · intro hcon
          exact absurd rfl hcon
        · intro hr
          exfalso
          rcases hr with hnone | ⟨t, ht, hstrip⟩
          · exact Option.noConfusion hnone
          · injection ht with hts
            subst hts
            rw [hstrip] at h
            exact h rfl
  · cases v with
    | none => rfl
    | some s =>
      simp only [set_options]
      split <;> rfl

/-- Witness for C8: a whitespace-only value is rejected; a non-empty value is
stored. -/
theorem set_options_witness :
    (set_options cors_origin.init (some "   ")).2 ≠ none ∧
    (set_options cors_origin.init (some "http://a/")).1.origin_header_value =
      some "http://a/" := by
  constructor
  · exact (set_options_spec cors_origin.init (some "   ")).1.mpr
      (Or.inr ⟨"   ", rfl, by decide⟩)
  · exact (set_options_spec cors_origin.init (some "http://a/")).2

/-- C10 (confirmed): each of the four rules appends its raw finding to the
knowledge base whenever it fires, for every throttle state — so the append
happens before (and independently of) the throttle decision; in particular,
in the suppressed regime `_universal_allow` returns no finding while its raw
finding is still appended to the knowledge base and its message is still
reported to the output manager. -/
theorem rules_append_kb_before_throttle (st : cors_origin)
    (req_url url origin : String) (rid : Nat) (ao ac am : Option String) :
    ((universal_allow st req_url url origin rid ao ac am).kb.head? =
      if ao = some "*" then some (universal_allow_vuln req_url rid) else none) ∧
    ((origin_echo st req_url url origin rid ao ac am).kb.head? =
      match ao with
      | none => none
      | some s =>
        if pyContains (pyLower s) origin then
          some (origin_echo_vuln req_url rid (pyCredsTrue ac))
        else none) ∧
    ((universal_origin_allow_creds st req_url url origin rid ao ac am).kb.head? =
      if pyCredsTrue ac = true ∧ ao = some "*" then
        some (universal_origin_allow_creds_vuln req_url rid)
      else none) ∧
    ((allow_methods st req_url url origin rid ao ac am).kb.head? =
      match am with
      | none => none
      | some ms =>
        if (allow_methods_sets ms).1 ≠ [] ∨ (allow_methods_sets ms).2 ≠ [] then
          some (allow_methods_vuln req_url url rid ms)
        else none) ∧
    (ao = some "*" → MAX_REPEATED_REPORTS < getCounter st .universal_allow_counter →
      "universal allow-origin" ∈ st.reported_global →
      (universal_allow st req_url url origin rid ao ac am).res = [] ∧
      (universal_allow st req_url url origin rid ao ac am).kb =
        [universal_allow_vuln req_url rid] ∧
      (universal_allow st req_url url origin rid ao ac am).om =
        [universal_allow_msg_template]) := by
  refine ⟨?_, ?_, ?_, ?_, ?_⟩
  · by_cases h : ao = some "*"
    · subst h; simp [universal_allow]
    · simp [universal_allow, h]
  · cases ao with
    | none => rfl
    | some s =>
      by_cases h : pyContains (pyLower s) origin = true
      · simp [origin_echo, h]
      · simp [origin_echo, h]
  · by_cases h : pyCredsTrue ac = true ∧ ao = some "*"
    · simp [universal_origin_allow_creds, h.1, h.2]
    · simp only [universal_origin_allow_creds]
      rw [if_neg h, if_neg h]
      rfl
  · cases am with
    | none => rfl
    | some ms =>
      by_cases h : (allow_methods_sets ms).1 ≠ [] ∨ (allow_methods_sets ms).2 ≠ []
      · simp [allow_methods, h]
      · simp [allow_methods, h]
  · intro h1 h2 h3
    subst h1
    simp only [universal_allow]
    rw [if_pos trivial]
    dsimp only
    simp only [filter_report]
    rw [if_neg (by omega), if_neg (not_not_intro h3)]
    exact ⟨rfl, rfl, rfl⟩

/-- Witness for C10: in the suppressed regime (counter past the threshold,
section already summarized) the rule returns nothing but the raw finding is
still appended to the knowledge base. -/
theorem rules_append_kb_witness :
    (universal_allow sSup "http://x.test/a" "http://x.test/a"
        "http://w3af.sourceforge.net/" 1 (some "*") none none).res = [] ∧
    (universal_allow sSup "http://x.test/a" "http://x.test/a"
        "http://w3af.sourceforge.net/" 1 (some "*") none none).kb =
      [universal_allow_vuln "http://x.test/a" 1] := by
  have h := (rules_append_kb_before_throttle sSup "http://x.test/a" "http://x.test/a"
    "http://w3af.sourceforge.net/" 1 (some "*") none none).2.2.2.2 rfl
    (by decide) (by decide)
  exact ⟨h.1, h.2.1⟩
